import Mathlib

/-!
Shallow embedding of `src/relayer/chainpy/eth/managers/ethchainmanager.py`
(class `EthChainManager`), the nonce ledger and transaction dispatcher of
the bifrost-relayer repository.

Modelling conventions:
- The manager's only mutable state relevant to the claims is the private
  integer field `self.__nonce`; it is threaded explicitly as an `Int`
  (Python integers are arbitrary-precision and signed, and `return_nonce`
  can drive the counter below zero).
- Collaborators that live outside the visible source (`set_gas_limit_and_fee`,
  `send_tx`, `call_tx`, the ABI encoder/decoder, the chain-state reader
  `eth_get_user_nonce`, the fee-policy helper `build_tx_including_fee_upper_bound`
  and `build_call_tx`) are taken as function parameters; the two that a claim
  inspects structurally (`build_call_tx`, `boost_upper_bound`) are modelled
  from the spec and marked as such in their doc comments.
- Python exceptions are modelled with `Except`: a function that can raise
  returns `Except e a`; the `try/except` in `send_transaction` becomes a
  `match` on the submitter's result, and `resend_transaction`, which has no
  `try/except`, lets the submitter's error surface as its own `.error`.
-/

/-- Python: `EthChainManager.issue_nonce` (a `@property`). Under the lock:
read `self.__nonce`, increment the stored value by one, return the
pre-increment value. The state is passed explicitly: the result is
`(returned nonce, new stored nonce)`. -/
def issue_nonce (s : Int) : Int × Int := (s, s + 1)

/-- Python: `EthChainManager.reset_nonce`. Under the lock, overwrite
`self.__nonce` with `self.eth_get_user_nonce(self.__account.address)`.
The chain-state reader is a parameter `reader`; the old stored value is
discarded. -/
def reset_nonce (reader : String → Int) (account_addr : String) (_s : Int) : Int :=
  reader account_addr

/-- Python: `EthChainManager.return_nonce`. Decrement `self.__nonce` by one
(the source takes no lock here). -/
def return_nonce (s : Int) : Int := s - 1

/-- A sequence of `n` consecutive `issue_nonce` calls starting from stored
nonce `s`: the list of returned values in call order, paired with the final
stored nonce. -/
def issueN : Nat → Int → List Int × Int
  | 0, s => ([], s)
  | Nat.succ n, s =>
      let p := issue_nonce s
      let q := issueN n p.2
      (p.1 :: q.1, q.2)

theorem issueN_eq (n : Nat) (v : Int) :
    issueN n v = ((List.range n).map (fun (i : Nat) => v + (i : Int)), v + n) := by
  induction n generalizing v with
  | zero => simp [issueN]
  | succ n ih =>
      simp only [issueN, issue_nonce, ih, Prod.mk.injEq]
      constructor
      · rw [List.range_succ_eq_map, List.map_cons, List.map_map]
        simp only [Nat.cast_zero, add_zero, List.cons.injEq, true_and]
        refine List.map_congr_left fun i _ => ?_
        simp only [Function.comp_apply]
        push_cast
        ring
      · push_cast
        ring

/-- C1: a sequence of `N` `issue_nonce` calls on a ledger whose stored
nonce is `v` returns exactly the values `v, v+1, ..., v+N-1` in order, with
no duplicates and no gaps, and leaves the stored nonce at `v + N`. -/
theorem issue_nonce_sequence_exact (N : Nat) (v : Int) :
    (issueN N v).1 = (List.range N).map (fun (i : Nat) => v + (i : Int)) ∧
    (issueN N v).1.Nodup ∧
    (issueN N v).2 = v + N := by
  have h := issueN_eq N v
  refine ⟨by rw [h], ?_, by rw [h]⟩
  rw [h]
  exact (List.nodup_range N).map fun a b hab => by
    have h2 : (v + (a : Int)) = v + (b : Int) := hab
    omega

/-! ## Transaction descriptors and the dispatcher -/

/-- The sentinel failure hash, Python `EthHashBytes.zero()`: a reserved
value denoting that no transaction was actually broadcast. Hashes are
modelled as natural numbers. -/
def zeroHash : Nat := 0

/-- A sendable transaction descriptor (Python `SendTxUnion`, i.e.
`TransactionType0`/`TransactionType2`): destination address, payload
bytes, value, gas limit and fee fields (absent until resolved), and the
nonce (absent until stamped by the dispatcher). -/
structure SendTx where
  to_addr : String
  data : List Nat
  value : Nat
  gas_limit : Option Nat
  fee_upper_bound : Nat
  nonce : Option Int
  deriving DecidableEq, Repr

/-- Modelled from the spec: `boost_upper_bound` on a transaction
descriptor (a method of the transaction types, whose source is not under
`src/`) performs monotonic fee escalation — it strictly increases the fee
upper bound and leaves every other field, in particular the nonce,
unchanged. -/
def boost_upper_bound (tx : SendTx) : SendTx :=
  { tx with fee_upper_bound := 2 * tx.fee_upper_bound + 1 }

/-- Python: `EthChainManager.send_transaction`. The fee/gas resolver
`set_gas_limit_and_fee` and the network submitter `send_tx` are
collaborators inherited from `EthTxHandler` (not under `src/`) and are
taken as parameters: `resolver tx boost resend` returns the pair
`(is_sendable, pre_processed_tx)` and `submit` either returns a hash or
raises (modelled as `Except`). The manager's stored nonce is threaded
explicitly: the result pairs the Python return value
`(pre_processed_tx, tx_hash)` with the new stored nonce. The
`gas_limit_multiplier` float argument is absorbed into the abstract
resolver. The `try/except` around `send_tx` becomes the `match`: an
error is swallowed and replaced by the zero hash, and the issued nonce is
not returned to the ledger. -/
def send_transaction (resolver : SendTx → Bool → Bool → Bool × SendTx)
    (submit : SendTx → Except String Nat)
    (tx_with_fee : SendTx) (boost resend : Bool) (s : Int) :
    (SendTx × Nat) × Int :=
  let r := resolver tx_with_fee boost resend
  let is_sendable := r.1
  let pre_processed_tx := r.2
  if is_sendable then
    let p := issue_nonce s
    let stamped := { tx_with_fee with nonce := some p.1 }
    match submit stamped with
    | Except.ok tx_hash => ((pre_processed_tx, tx_hash), p.2)
    | Except.error _ => ((pre_processed_tx, zeroHash), p.2)
  else
    ((pre_processed_tx, zeroHash), s)

/-- Python: `EthChainManager.resend_transaction`. `tx.boost_upper_bound()`
then `self.send_tx(tx, self.__account)` with no `try/except`: an
exception from the submitter propagates to the caller, modelled as the
whole call returning `Except.error`. The stored nonce `s` is never
touched; it is threaded through so the frame property is statable. -/
def resend_transaction (submit : SendTx → Except String Nat)
    (tx : SendTx) (s : Int) : Except String ((SendTx × Nat) × Int) :=
  let tx2 := boost_upper_bound tx
  match submit tx2 with
  | Except.ok tx_hash => Except.ok ((tx2, tx_hash), s)
  | Except.error e => Except.error e

/-! ## Contract registry, encoder and the call path -/

/-- Python `EthContract` as far as the claims need it: a name, an address
and an ABI (the ABI is an opaque token handed to the encoding
collaborator). -/
structure EthContract where
  name : String
  address : String
  abi : String
  deriving DecidableEq, Repr

/-- Errors of the visible Python code. `attributeErrorNone` is the
`AttributeError` Python raises when an attribute is read on `None`;
`encodingError` stands for whatever the ABI collaborator raises;
`unknownContract` is the typed error named by the spec — the visible code
never constructs it, it exists so the spec claim can be stated and
compared. -/
inductive PyError where
  | attributeErrorNone : PyError
  | encodingError : String → PyError
  | unknownContract : PyError
  deriving DecidableEq, Repr

/-- Python: `EthChainManager.get_contract_by_name`, i.e.
`self.__contracts_dict.get(contract_name)` — `None` when the name is not
registered. The dict is modelled as an association list. -/
def get_contract_by_name (contracts_dict : List (String × EthContract))
    (contract_name : String) : Option EthContract :=
  contracts_dict.lookup contract_name

/-- Python: `EthChainManager._get_contract_addr_and_build_tx_data`.
Looks the contract up by name and encodes the method call via the ABI
collaborator (`contract.abi.get_method(m).encode_input_data(params)`,
taken as the parameter `encode`). When the name is not registered the
lookup returns `None` and the very next line, `contract.address`, raises
`AttributeError` — hence `.error .attributeErrorNone`. An error raised by
the encoder propagates unchanged. -/
def get_contract_addr_and_build_tx_data
    (contracts_dict : List (String × EthContract))
    (encode : String → String → List Int → Except PyError (List Nat))
    (contract_name method_name : String) (method_params : List Int) :
    Except PyError (String × List Nat) :=
  match get_contract_by_name contracts_dict contract_name with
  | none => Except.error PyError.attributeErrorNone
  | some contract =>
      match encode contract.abi method_name method_params with
      | Except.ok data => Except.ok (contract.address, data)
      | Except.error e => Except.error e

/-- Modelled from the spec: `build_tx_including_fee_upper_bound`
(inherited from `EthTxHandler`, not under `src/`) builds a fee-bearing
transaction skeleton whose fee upper bound is computed by the fee-policy
collaborator `feePolicy`; no gas limit and no nonce are assigned. -/
def build_tx_including_fee_upper_bound (feePolicy : String → List Nat → Nat → Nat)
    (to_addr : String) (data : List Nat) (value : Nat) : SendTx :=
  { to_addr := to_addr, data := data, value := value,
    gas_limit := none, fee_upper_bound := feePolicy to_addr data value,
    nonce := none }

/-- Python: `EthChainManager.build_transaction`: resolve name and encode,
then build the fee-bounded skeleton, the value defaulting to
`EthAmount(0)` when `None`. -/
def build_transaction (contracts_dict : List (String × EthContract))
    (encode : String → String → List Int → Except PyError (List Nat))
    (feePolicy : String → List Nat → Nat → Nat)
    (contract_name method_name : String) (method_params : List Int)
    (value : Option Nat) : Except PyError SendTx :=
  match get_contract_addr_and_build_tx_data contracts_dict encode
      contract_name method_name method_params with
  | Except.error e => Except.error e
  | Except.ok ad =>
      Except.ok (build_tx_including_fee_upper_bound feePolicy ad.1 ad.2
        (match value with | none => 0 | some v => v))

/-- Modelled from the spec: `build_call_tx` (inherited from
`EthTxHandler`, not under `src/`) builds a read-only call descriptor —
destination, payload, value and sender, with no nonce and no fee
fields. -/
structure CallTx where
  to_addr : String
  data : List Nat
  value : Option Nat
  sender_addr : String
  deriving DecidableEq, Repr

/-- Modelled from the spec: constructor for the read-only call
descriptor, recording its four arguments unchanged. -/
def build_call_tx (to_addr : String) (data : List Nat) (value : Option Nat)
    (sender_addr : String) : CallTx :=
  { to_addr := to_addr, data := data, value := value, sender_addr := sender_addr }

/-- The first half of Python `EthChainManager.call_transaction`: resolve
the contract and encode, default the sender to the manager's own account
address when `sender_addr is None`, and build the call descriptor that is
then handed to `self.call_tx`. -/
def call_transaction_built_tx (contracts_dict : List (String × EthContract))
    (encode : String → String → List Int → Except PyError (List Nat))
    (account_addr : String) (contract_name method_name : String)
    (method_params : List Int) (sender_addr : Option String) :
    Except PyError CallTx :=
  match get_contract_addr_and_build_tx_data contracts_dict encode
      contract_name method_name method_params with
  | Except.error e => Except.error e
  | Except.ok ad =>
      let sender := match sender_addr with
        | none => account_addr
        | some a => a
      Except.ok (build_call_tx ad.1 ad.2 none sender)

/-- Python: `EthChainManager.call_transaction`. The RPC execution
`self.call_tx` and the output decoder
`contract.abi.get_method(m).decode_output_data` are collaborators taken
as parameters. After the call the contract is looked up again for
decoding, exactly as the source does. -/
def call_transaction (contracts_dict : List (String × EthContract))
    (encode : String → String → List Int → Except PyError (List Nat))
    (exec_call : CallTx → Except PyError (List Nat))
    (decode : String → String → List Nat → Except PyError (List Int))
    (account_addr : String) (contract_name method_name : String)
    (method_params : List Int) (sender_addr : Option String) :
    Except PyError (List Int) :=
  match call_transaction_built_tx contracts_dict encode account_addr
      contract_name method_name method_params sender_addr with
  | Except.error e => Except.error e
  | Except.ok call_tx =>
      match exec_call call_tx with
      | Except.error e => Except.error e
      | Except.ok result =>
          match get_contract_by_name contracts_dict contract_name with
          | none => Except.error PyError.attributeErrorNone
          | some contract => decode contract.abi method_name result

/-! ## Concrete fixtures for witnesses and counterexamples -/

/-- A concrete unsent transaction descriptor. -/
def tx0 : SendTx :=
  { to_addr := "0xdead", data := [1, 2], value := 0,
    gas_limit := none, fee_upper_bound := 10, nonce := none }

/-- A fee/gas resolver stub that reports sendable and returns the
transaction unchanged. -/
def resolverTrue : SendTx → Bool → Bool → Bool × SendTx := fun tx _ _ => (true, tx)

/-- A fee/gas resolver stub that reports not-sendable. -/
def resolverFalse : SendTx → Bool → Bool → Bool × SendTx := fun tx _ _ => (false, tx)

/-- A submitter stub that succeeds with hash 42. -/
def submitOk : SendTx → Except String Nat := fun _ => Except.ok 42

/-- A submitter stub that raises a network error. -/
def submitFail : SendTx → Except String Nat := fun _ => Except.error "network down"

/-- An ABI encoder stub that succeeds with payload `[0]`. -/
def encodeOk : String → String → List Int → Except PyError (List Nat) :=
  fun _ _ _ => Except.ok [0]

/-- An ABI encoder stub that raises an encoding error. -/
def encodeErr : String → String → List Int → Except PyError (List Nat) :=
  fun _ _ _ => Except.error (PyError.encodingError "bad params")

/-- A fee-policy stub. -/
def feePolicy0 : String → List Nat → Nat → Nat := fun _ _ _ => 7

/-- An RPC call-execution stub. -/
def execOk : CallTx → Except PyError (List Nat) := fun _ => Except.ok [3]

/-- An ABI output-decoder stub. -/
def decodeOk : String → String → List Nat → Except PyError (List Int) :=
  fun _ _ xs => Except.ok (xs.map (fun x => (x : Int)))

/-- A concrete registered contract. -/
def tokenContract : EthContract :=
  { name := "Token", address := "0xToken", abi := "tokenAbi" }

/-- A concrete one-entry contract registry. -/
def registry1 : List (String × EthContract) := [("Token", tokenContract)]

/-! ## Claims -/

/-- C2: when the fee/gas resolver reports not-sendable,
`send_transaction` returns the pre-processed descriptor paired with the
sentinel zero hash and the stored nonce is unchanged — no nonce is
issued. -/
theorem send_not_sendable_preserves_nonce
    (resolver : SendTx → Bool → Bool → Bool × SendTx)
    (submit : SendTx → Except String Nat)
    (tx : SendTx) (boost resend : Bool) (s : Int) (pre : SendTx)
    (h : resolver tx boost resend = (false, pre)) :
    send_transaction resolver submit tx boost resend s = ((pre, zeroHash), s) := by
  simp [send_transaction, h]

/-- Witness for C2 at a concrete not-sendable resolver. -/
theorem send_not_sendable_preserves_nonce_witness :
    send_transaction resolverFalse submitOk tx0 false false 5 = ((tx0, zeroHash), 5) :=
  send_not_sendable_preserves_nonce resolverFalse submitOk tx0 false false 5 tx0 rfl

/-- C3: when the resolver reports sendable and the submitter raises, the
exception is caught, `send_transaction` returns the descriptor paired
with the zero hash, and the issued nonce is kept as consumed: the stored
nonce ends at `s + 1`. -/
theorem send_failure_swallowed_nonce_consumed
    (resolver : SendTx → Bool → Bool → Bool × SendTx)
    (submit : SendTx → Except String Nat)
    (tx : SendTx) (boost resend : Bool) (s : Int) (pre : SendTx) (e : String)
    (h1 : resolver tx boost resend = (true, pre))
    (h2 : submit { tx with nonce := some s } = Except.error e) :
    send_transaction resolver submit tx boost resend s = ((pre, zeroHash), s + 1) := by
  simp [send_transaction, issue_nonce, h1, h2]

/-- Witness for C3 at a concrete failing submitter. -/
theorem send_failure_swallowed_nonce_consumed_witness :
    send_transaction resolverTrue submitFail tx0 false false 5 = ((tx0, zeroHash), 6) :=
  send_failure_swallowed_nonce_consumed resolverTrue submitFail tx0 false false 5 tx0
    "network down" rfl rfl

/-- C4 counterexample: on a submission failure with the ledger at 5, the
stored nonce afterwards is 6, not 5 — the dispatcher does not roll the
issued nonce back. -/
theorem send_failure_rollback_cex :
    send_transaction resolverTrue submitFail tx0 false false 5 = ((tx0, zeroHash), 6) ∧
    (6 : Int) ≠ 5 := by
  exact ⟨rfl, by decide⟩

/-- C4 (amended): on submission failure the dispatcher returns the
sentinel failure hash but does NOT roll back the issued nonce: the stored
nonce after a failed send is `s + 1`, one more than before the send;
`return_nonce` exists but `send_transaction` never calls it. -/
theorem send_failure_no_rollback
    (resolver : SendTx → Bool → Bool → Bool × SendTx)
    (submit : SendTx → Except String Nat)
    (tx : SendTx) (boost resend : Bool) (s : Int) (pre : SendTx) (e : String)
    (h1 : resolver tx boost resend = (true, pre))
    (h2 : submit { tx with nonce := some s } = Except.error e) :
    (send_transaction resolver submit tx boost resend s).1.2 = zeroHash ∧
    (send_transaction resolver submit tx boost resend s).2 = s + 1 ∧
    (send_transaction resolver submit tx boost resend s).2 ≠ s := by
  simp [send_transaction, issue_nonce, h1, h2]

/-- Witness for the amended C4 at a concrete failing submitter. -/
theorem send_failure_no_rollback_witness :
    (send_transaction resolverTrue submitFail tx0 false false 5).1.2 = zeroHash ∧
    (send_transaction resolverTrue submitFail tx0 false false 5).2 = 6 ∧
    (send_transaction resolverTrue submitFail tx0 false false 5).2 ≠ 5 :=
  send_failure_no_rollback resolverTrue submitFail tx0 false false 5 tx0
    "network down" rfl rfl

/-- C5: `reset_nonce` overwrites the stored nonce with the chain-state
reader's value for the account's address, regardless of the prior stored
value `s`, and an immediately following `issue_nonce` returns exactly
that value. -/
theorem reset_then_issue_returns_chain_nonce
    (reader : String → Int) (account_addr : String) (s : Int) :
    reset_nonce reader account_addr s = reader account_addr ∧
    (issue_nonce (reset_nonce reader account_addr s)).1 = reader account_addr :=
  ⟨rfl, rfl⟩

/-- C6: a successful `resend_transaction` resubmits the descriptor with
its nonce field unchanged, strictly boosts its fee upper bound, and
leaves the stored ledger nonce identical. -/
theorem resend_preserves_nonce_boosts_fee
    (submit : SendTx → Except String Nat) (tx : SendTx) (s : Int)
    (tx2 : SendTx) (tx_hash : Nat) (s2 : Int)
    (h : resend_transaction submit tx s = Except.ok ((tx2, tx_hash), s2)) :
    tx2.nonce = tx.nonce ∧ tx.fee_upper_bound < tx2.fee_upper_bound ∧ s2 = s := by
  simp only [resend_transaction] at h
  cases hs : submit (boost_upper_bound tx) with
  | ok v =>
      rw [hs] at h
      simp only [Except.ok.injEq, Prod.mk.injEq] at h
      obtain ⟨⟨h1, _⟩, h3⟩ := h
      subst h1
      refine ⟨rfl, ?_, h3.symm⟩
      simp only [boost_upper_bound]
      omega
  | error e =>
      rw [hs] at h
      simp at h

/-- Witness for C6 at a concrete succeeding submitter. -/
theorem resend_preserves_nonce_boosts_fee_witness :
    (boost_upper_bound tx0).nonce = tx0.nonce ∧
    tx0.fee_upper_bound < (boost_upper_bound tx0).fee_upper_bound ∧
    (5 : Int) = 5 :=
  resend_preserves_nonce_boosts_fee submitOk tx0 5 (boost_upper_bound tx0) 42 5 rfl

/-- C7 counterexample: with a submitter that raises, `resend_transaction`
propagates the error to its caller instead of returning the descriptor
with the sentinel zero hash. -/
theorem resend_error_propagates_cex :
    resend_transaction submitFail tx0 7 = Except.error "network down" ∧
    resend_transaction submitFail tx0 7 ≠
      Except.ok ((boost_upper_bound tx0, zeroHash), 7) := by
  refine ⟨rfl, fun hcontra => ?_⟩
  simp [resend_transaction, submitFail] at hcontra

/-- C7 (amended): a send error raised by the submitter during
`resend_transaction` propagates to the caller unchanged; only
`send_transaction` converts submission failures to the sentinel zero
hash. -/
theorem resend_error_propagates
    (submit : SendTx → Except String Nat) (tx : SendTx) (s : Int) (e : String)
    (h : submit (boost_upper_bound tx) = Except.error e) :
    resend_transaction submit tx s = Except.error e := by
  simp [resend_transaction, h]

/-- Witness for the amended C7 at a concrete failing submitter. -/
theorem resend_error_propagates_witness :
    resend_transaction submitFail tx0 3 = Except.error "network down" :=
  resend_error_propagates submitFail tx0 3 "network down" rfl

/-- C8: `issue_nonce` followed by `return_nonce` restores the stored
nonce to its starting value `v`; `return_nonce` decrements by exactly
one. -/
theorem issue_then_return_restores (v : Int) :
    return_nonce (issue_nonce v).2 = v ∧ return_nonce v = v - 1 := by
  constructor
  · simp [issue_nonce, return_nonce]
  · rfl

/-- C9 counterexample: on the empty registry, looking up "Foo" makes
`get_contract_addr_and_build_tx_data` (and hence `build_transaction` and
`call_transaction`) fail with the `None`-attribute error, which is not
the typed `unknownContract` error the spec names. -/
theorem unknown_contract_cex :
    get_contract_addr_and_build_tx_data [] encodeOk "Foo" "bar" [] =
      Except.error PyError.attributeErrorNone ∧
    build_transaction [] encodeOk feePolicy0 "Foo" "bar" [] none =
      Except.error PyError.attributeErrorNone ∧
    PyError.attributeErrorNone ≠ PyError.unknownContract := by
  exact ⟨rfl, rfl, by decide⟩

/-- C9 (amended): an unregistered contract name makes
`get_contract_addr_and_build_tx_data`, `build_transaction` and
`call_transaction` fail with the `AttributeError` from dereferencing the
`None` returned by the registry lookup — not with a typed
`UnknownContract` error — and an encoding error raised by the ABI
collaborator propagates unchanged through all three. -/
theorem unregistered_and_encoding_error_behavior
    (contracts_dict : List (String × EthContract))
    (encode : String → String → List Int → Except PyError (List Nat))
    (feePolicy : String → List Nat → Nat → Nat)
    (exec_call : CallTx → Except PyError (List Nat))
    (decode : String → String → List Nat → Except PyError (List Int))
    (account_addr contract_name method_name : String)
    (method_params : List Int) (value : Option Nat) (sender_addr : Option String) :
    (get_contract_by_name contracts_dict contract_name = none →
      get_contract_addr_and_build_tx_data contracts_dict encode contract_name
          method_name method_params = Except.error PyError.attributeErrorNone ∧
      build_transaction contracts_dict encode feePolicy contract_name
          method_name method_params value = Except.error PyError.attributeErrorNone ∧
      call_transaction contracts_dict encode exec_call decode account_addr
          contract_name method_name method_params sender_addr =
        Except.error PyError.attributeErrorNone) ∧
    (∀ c msg, get_contract_by_name contracts_dict contract_name = some c →
      encode c.abi method_name method_params =
        Except.error (PyError.encodingError msg) →
      get_contract_addr_and_build_tx_data contracts_dict encode contract_name
          method_name method_params = Except.error (PyError.encodingError msg) ∧
      build_transaction contracts_dict encode feePolicy contract_name
          method_name method_params value = Except.error (PyError.encodingError msg) ∧
      call_transaction contracts_dict encode exec_call decode account_addr
          contract_name method_name method_params sender_addr =
        Except.error (PyError.encodingError msg)) := by
  constructor
  · intro h
    refine ⟨?_, ?_, ?_⟩ <;>
      simp [get_contract_addr_and_build_tx_data, build_transaction,
        call_transaction, call_transaction_built_tx, h]
  · intro c msg hc he
    refine ⟨?_, ?_, ?_⟩ <;>
      simp [get_contract_addr_and_build_tx_data, build_transaction,
        call_transaction, call_transaction_built_tx, hc, he]

/-- Witness for the amended C9: the unregistered-name case on the empty
registry with "Foo", and the encoding-error case on the one-entry
registry with a failing encoder. -/
theorem unregistered_and_encoding_error_behavior_witness :
    (get_contract_addr_and_build_tx_data [] encodeOk "Foo" "bar" [] =
        Except.error PyError.attributeErrorNone ∧
      build_transaction [] encodeOk feePolicy0 "Foo" "bar" [] none =
        Except.error PyError.attributeErrorNone ∧
      call_transaction [] encodeOk execOk decodeOk "0xme" "Foo" "bar" [] none =
        Except.error PyError.attributeErrorNone) ∧
    (get_contract_addr_and_build_tx_data registry1 encodeErr "Token" "balanceOf" [] =
        Except.error (PyError.encodingError "bad params") ∧
      build_transaction registry1 encodeErr feePolicy0 "Token" "balanceOf" [] none =
        Except.error (PyError.encodingError "bad params") ∧
      call_transaction registry1 encodeErr execOk decodeOk "0xme" "Token"
          "balanceOf" [] none = Except.error (PyError.encodingError "bad params")) :=
  ⟨(unregistered_and_encoding_error_behavior [] encodeOk feePolicy0 execOk decodeOk
      "0xme" "Foo" "bar" [] none none).1 rfl,
   (unregistered_and_encoding_error_behavior registry1 encodeErr feePolicy0 execOk
      decodeOk "0xme" "Token" "balanceOf" [] none none).2 tokenContract
      "bad params" rfl rfl⟩

/-- C10: when `call_transaction` is invoked with the optional sender
omitted (`none`), the read-only call descriptor it builds and hands to
the RPC executor carries the manager's own account address as sender;
when a sender is supplied, that address is used unchanged. Stated via
`call_transaction_built_tx`, the descriptor-building first half of
`call_transaction`. -/
theorem call_transaction_sender_default
    (contracts_dict : List (String × EthContract))
    (encode : String → String → List Int → Except PyError (List Nat))
    (account_addr contract_name method_name : String)
    (method_params : List Int) (to_addr : String) (data : List Nat)
    (h : get_contract_addr_and_build_tx_data contracts_dict encode contract_name
        method_name method_params = Except.ok (to_addr, data)) :
    call_transaction_built_tx contracts_dict encode account_addr contract_name
        method_name method_params none =
      Except.ok (build_call_tx to_addr data none account_addr) ∧
    ∀ a, call_transaction_built_tx contracts_dict encode account_addr contract_name
        method_name method_params (some a) =
      Except.ok (build_call_tx to_addr data none a) := by
  constructor
  · simp [call_transaction_built_tx, h]
  · intro a
    simp [call_transaction_built_tx, h]

/-- Witness for C10 on the one-entry registry, both with the sender
omitted and with an explicit sender. -/
theorem call_transaction_sender_default_witness :
    call_transaction_built_tx registry1 encodeOk "0xme" "Token" "balanceOf" [] none =
      Except.ok (build_call_tx "0xToken" [0] none "0xme") ∧
    call_transaction_built_tx registry1 encodeOk "0xme" "Token" "balanceOf" []
        (some "0xother") = Except.ok (build_call_tx "0xToken" [0] none "0xother") :=
  ⟨(call_transaction_sender_default registry1 encodeOk "0xme" "Token" "balanceOf"
      [] "0xToken" [0] rfl).1,
   (call_transaction_sender_default registry1 encodeOk "0xme" "Token" "balanceOf"
      [] "0xToken" [0] rfl).2 "0xother"⟩
